import Mathlib

/-!
Verification of the echo-models repository: a shallow embedding of its
declaration modules (entity shapes, enumeration constants, default-value
tables, policy/limit tables, and validation constants) together with
theorems settling the specification claims about them.

Enumerated string-literal types of the source are embedded as `String`
values together with the exported enumeration lists; constant object
tables become Lean structures or association lists keyed by the
discriminant string, mirroring the JavaScript objects field for field.
-/

namespace EchoModels

/-! ## JSON values

A small JSON value type used to embed fields typed `Record<string, any>`
(free-form metadata objects) and, later, to state the
serialize-then-parse round-trip property. -/

/-- A JSON value: null, boolean, number, string, array or object.
Numbers are embedded as integers, which covers every numeric literal
appearing in this repository. -/
inductive Json where
  | null : Json
  | bool : Bool → Json
  | num : Int → Json
  | str : String → Json
  | arr : List Json → Json
  | obj : List (String × Json) → Json

/-! ## Organization module (src organization declarations)

Embeds `ORGANIZATION_PLANS`, `ORGANIZATION_DEFAULTS`, `PLAN_LIMITS` and
`ORGANIZATION_VALIDATION` from the organization module. -/

/-- Constants for organization plans: `ORGANIZATION_PLANS = ['free', 'pro', 'enterprise']`. -/
def ORGANIZATION_PLANS : List String := ["free", "pro", "enterprise"]

/-- Custom branding settings nested inside `OrganizationSettings`:
`logo_url?`, `primary_color?`, `secondary_color?`, all optional strings. -/
structure Branding where
  logo_url : Option String
  primary_color : Option String
  secondary_color : Option String
deriving DecidableEq

/-- The `OrganizationSettings` interface: anonymous-response policy,
default timezone, quota numbers, analytics flag and optional branding. -/
structure OrganizationSettings where
  allow_anonymous_responses : Bool
  default_timezone : String
  max_questions : Int
  max_users : Int
  analytics_enabled : Bool
  branding : Option Branding
deriving DecidableEq

/-- The shape of the `ORGANIZATION_DEFAULTS` constant: a default plan,
a settings object and a metadata object. -/
structure OrganizationDefaults where
  plan : String
  settings : OrganizationSettings
  metadata : List (String × Json)

/-- Default values for organization creation, transcribed from the
`ORGANIZATION_DEFAULTS` constant object. The source settings object has
no `branding` key, so `branding` is `none`. -/
def ORGANIZATION_DEFAULTS : OrganizationDefaults :=
  { plan := "free"
    settings :=
      { allow_anonymous_responses := true
        default_timezone := "UTC"
        max_questions := 10
        max_users := 5
        analytics_enabled := false
        branding := none }
    metadata := [] }

/-- One entry of the `PLAN_LIMITS` table: quotas and feature flags for a plan. -/
structure PlanLimit where
  max_questions : Int
  max_users : Int
  analytics_enabled : Bool
  custom_branding : Bool
deriving DecidableEq

/-- Plan limits and features: the `PLAN_LIMITS` constant object, embedded
as an association list keyed by the plan literal, in source order. -/
def PLAN_LIMITS : List (String × PlanLimit) :=
  [ ("free",
      { max_questions := 10
        max_users := 5
        analytics_enabled := false
        custom_branding := false }),
    ("pro",
      { max_questions := 100
        max_users := 50
        analytics_enabled := true
        custom_branding := true }),
    ("enterprise",
      { max_questions := -1
        max_users := -1
        analytics_enabled := true
        custom_branding := true }) ]

/-- Characters admitted by the slug pattern `[a-z0-9-]`: lowercase ASCII
letters, ASCII digits and the hyphen. -/
def isSlugChar (c : Char) : Bool :=
  (decide ('a' ≤ c) && decide (c ≤ 'z'))
    || (decide ('0' ≤ c) && decide (c ≤ '9'))
    || decide (c = '-')

/-- The slug regular expression of the source, anchored at both ends:
one or more slug characters. A string matches exactly when it is
nonempty and every character is a slug character. -/
def slugPatternMatch (s : String) : Bool :=
  !s.toList.isEmpty && s.toList.all isSlugChar

/-- The shape of the `ORGANIZATION_VALIDATION` constant. The regular
expression field is embedded as its matching function on strings. -/
structure OrganizationValidation where
  max_name_length : Nat
  max_slug_length : Nat
  min_slug_length : Nat
  max_metadata_size : Nat
  slug_pattern : String → Bool

/-- Validation rules for organizations, transcribed from the
`ORGANIZATION_VALIDATION` constant object. -/
def ORGANIZATION_VALIDATION : OrganizationValidation :=
  { max_name_length := 100
    max_slug_length := 50
    min_slug_length := 3
    max_metadata_size := 2048
    slug_pattern := slugPatternMatch }

/-! ## User module (src/dist/cjs/user.js)

Embeds `USER_ROLES`, `USER_STATUSES`, `USER_DEFAULTS`, `USER_VALIDATION`
and `USER_PERMISSIONS`. -/

/-- Constants for user roles: `USER_ROLES = ['admin', 'user']`. -/
def USER_ROLES : List String := ["admin", "user"]

/-- Constants for user statuses:
`USER_STATUSES = ['active', 'suspended', 'pending', 'inactive']`. -/
def USER_STATUSES : List String := ["active", "suspended", "pending", "inactive"]

/-- The `UserPreferences` interface: timezone, notification flags,
language, anonymous-response visibility flag and theme. -/
structure UserPreferences where
  timezone : String
  email_notifications : Bool
  push_notifications : Bool
  language : String
  show_anonymous_responses : Bool
  theme : String
deriving DecidableEq

/-- The shape of the `USER_DEFAULTS` constant. -/
structure UserDefaults where
  role : String
  status : String
  preferences : UserPreferences
  metadata : List (String × Json)

/-- Default values for user creation, transcribed from the
`USER_DEFAULTS` constant object. -/
def USER_DEFAULTS : UserDefaults :=
  { role := "user"
    status := "active"
    preferences :=
      { timezone := "UTC"
        email_notifications := true
        push_notifications := false
        language := "en"
        show_anonymous_responses := false
        theme := "auto" }
    metadata := [] }

/-- JavaScript regular-expression whitespace class: the characters
matched by the backslash-s class (space, tab, line feed, vertical tab,
form feed, carriage return, and the Unicode space separators, line and
paragraph separators, and the byte-order mark). -/
def isJsWhitespace (c : Char) : Bool :=
  c = ' ' || c = '\t' || c = '\n' || c = '\x0b' || c = '\x0c' || c = '\r'
    || c = ' ' || c = ' '
    || (decide (' ' ≤ c) && decide (c ≤ ' '))
    || c = ' ' || c = ' ' || c = ' ' || c = ' '
    || c = '　' || c = '﻿'

/-- Characters admitted by the email-pattern atom class: any character
that is neither whitespace nor the at sign. -/
def isEmailAtomChar (c : Char) : Bool :=
  !isJsWhitespace c && !(c = '@')

/-- The email regular expression of the source, anchored at both ends:
one or more atom characters, an at sign, one or more atom characters, a
dot, and one or more atom characters. A string matches exactly when it
decomposes at some at-sign position i and some later dot position j into
three nonempty runs of atom characters. -/
def emailPatternMatch (s : String) : Bool :=
  let cs := s.toList
  let n := cs.length
  (List.range n).any (fun i =>
    (List.range n).any (fun j =>
      decide (0 < i) && decide (i + 1 < j) && decide (j + 1 < n)
        && (cs.getD i ' ' = '@') && (cs.getD j ' ' = '.')
        && (cs.take i).all isEmailAtomChar
        && ((cs.drop (i + 1)).take (j - (i + 1))).all isEmailAtomChar
        && (cs.drop (j + 1)).all isEmailAtomChar))

/-- The shape of the `USER_VALIDATION` constant. The regular expression
field is embedded as its matching function on strings. -/
structure UserValidation where
  max_name_length : Nat
  max_email_length : Nat
  email_pattern : String → Bool
  max_metadata_size : Nat
  min_password_length : Nat
  max_password_length : Nat

/-- Validation rules for users, transcribed from the `USER_VALIDATION`
constant object. -/
def USER_VALIDATION : UserValidation :=
  { max_name_length := 100
    max_email_length := 254
    email_pattern := emailPatternMatch
    max_metadata_size := 1024
    min_password_length := 8
    max_password_length := 128 }

/-- User permissions by role: the `USER_PERMISSIONS` constant object,
embedded as an association list from the role literal to the list of
permission-flag entries, both in source order. -/
def USER_PERMISSIONS : List (String × List (String × Bool)) :=
  [ ("admin",
      [ ("can_create_questions", true),
        ("can_edit_questions", true),
        ("can_delete_questions", true),
        ("can_view_analytics", true),
        ("can_manage_users", true),
        ("can_manage_organization", true),
        ("can_export_data", true) ]),
    ("user",
      [ ("can_create_questions", false),
        ("can_edit_questions", false),
        ("can_delete_questions", false),
        ("can_view_analytics", false),
        ("can_manage_users", false),
        ("can_manage_organization", false),
        ("can_export_data", false) ]) ]

/-! ## Question module (src/dist/question.js)

Embeds `QUESTION_TYPES`, `QUESTION_VISIBILITY` and `QUESTION_DEFAULTS`. -/

/-- Constants for question types:
`QUESTION_TYPES = ['multiple_choice', 'text', 'scale']`. -/
def QUESTION_TYPES : List String := ["multiple_choice", "text", "scale"]

/-- Constants for visibility states:
`QUESTION_VISIBILITY = ['live', 'draft', 'private']`. -/
def QUESTION_VISIBILITY : List String := ["live", "draft", "private"]

/-- The shape of the `QUESTION_DEFAULTS` constant. The `asset_url`
default is the null literal, embedded as `none`. -/
structure QuestionDefaults where
  allow_multiple : Bool
  is_active : Bool
  is_anonymous : Bool
  visibility : String
  tags : List String
  asset_url : Option String

/-- Default values for question creation, transcribed from the
`QUESTION_DEFAULTS` constant object. -/
def QUESTION_DEFAULTS : QuestionDefaults :=
  { allow_multiple := false
    is_active := false
    is_anonymous := false
    visibility := "draft"
    tags := []
    asset_url := none }

/-! ## Response module (src/dist/cjs/response.js)

Embeds `RESPONSE_STATUSES`, `RESPONSE_DEFAULTS` and
`RESPONSE_VALIDATION`, together with the declared field lists of the
`Response` interface. -/

/-- Constants for response statuses:
`RESPONSE_STATUSES = ['submitted', 'pending', 'invalid']`. -/
def RESPONSE_STATUSES : List String := ["submitted", "pending", "invalid"]

/-- The shape of the `RESPONSE_VALIDATION` constant. -/
structure ResponseValidation where
  max_text_length : Nat
  max_answer_selections : Nat
  max_metadata_size : Nat

/-- Validation rules for responses, transcribed from the
`RESPONSE_VALIDATION` constant object. -/
def RESPONSE_VALIDATION : ResponseValidation :=
  { max_text_length := 1000
    max_answer_selections := 10
    max_metadata_size := 1024 }

/-- The required fields of the `Response` interface, in declaration
order: every field of the declared shape that is not marked optional.
The `user_id` field is required but its type admits null. -/
def responseRequiredFields : List String :=
  ["id", "organization_id", "question_id", "user_id", "answer",
   "submitted_at", "date"]

/-- The optional fields of the `Response` interface, in declaration
order: the fields marked with a question mark in the declared shape. -/
def responseOptionalFields : List String :=
  ["text_answer", "metadata"]

/-! ## Entity shapes

The four persisted entity interfaces, embedded as structures. Optional
fields (marked with a question mark in the source) and nullable fields
become `Option`; free-form metadata objects become JSON object field
lists. -/

/-- The `Organization` interface: tenant root. -/
structure Organization where
  id : String
  name : String
  slug : String
  timezone : String
  plan : String
  created_at : String
  settings : Option OrganizationSettings
  metadata : Option (List (String × Json))

/-- The `User` interface: a member of an organization. -/
structure User where
  id : String
  email : String
  name : Option String
  organization_id : String
  role : String
  status : String
  last_login_at : String
  created_at : String
  preferences : Option UserPreferences
  metadata : Option (List (String × Json))

/-- The `Question` interface: a question scheduled and presented to
users. The `asset_url` field is optional and nullable in the source;
both absence and null are embedded as `none`. -/
structure Question where
  id : String
  organization_id : String
  text : String
  options : List String
  type : String
  allow_multiple : Bool
  scheduled_for : String
  is_active : Bool
  is_anonymous : Bool
  asset_url : Option String
  created_by : String
  visibility : String
  tags : List String
  created_at : String

/-- The `Response` interface: an answer to a question. The `user_id`
field is required but nullable (`string | null`); null marks an
anonymous response and is embedded as `none`. -/
structure Response where
  id : String
  organization_id : String
  question_id : String
  user_id : Option String
  answer : List String
  text_answer : Option String
  submitted_at : String
  date : String
  metadata : Option (List (String × Json))

/-! ## Serialization

Modelled from the spec: the repository itself ships no serializer or
parser (it is declarations only), but the specification asserts a
round-trip property of the representation. The canonical JSON
representation below writes every field of the declared shape in
declaration order, rendering an absent optional value and a null
nullable value as JSON null; the parsers read fields back by name. -/

/-- Field lookup by name in a JSON object field list: the first binding
of the key, if any. -/
def lookupField (fs : List (String × Json)) (k : String) : Option Json :=
  match fs with
  | [] => none
  | (k2, v) :: rest => if k2 = k then some v else lookupField rest k

/-- Decode a JSON string value. -/
def decodeStr : Json → Option String
  | Json.str s => some s
  | _ => none

/-- Decode a JSON boolean value. -/
def decodeBool : Json → Option Bool
  | Json.bool b => some b
  | _ => none

/-- Decode a JSON number value. -/
def decodeNum : Json → Option Int
  | Json.num n => some n
  | _ => none

/-- Encode an optional string: null when absent. -/
def encodeOptStr : Option String → Json
  | none => Json.null
  | some s => Json.str s

/-- Decode an optional string: null means absent. -/
def decodeOptStr : Json → Option (Option String)
  | Json.null => some none
  | Json.str s => some (some s)
  | _ => none

/-- Encode a list of strings as a JSON array of strings. -/
def encodeStrList (xs : List String) : Json :=
  Json.arr (xs.map Json.str)

/-- Decode every element of a JSON array as a string. -/
def decodeStrItems : List Json → Option (List String)
  | [] => some []
  | j :: rest =>
    match decodeStr j, decodeStrItems rest with
    | some s, some ss => some (s :: ss)
    | _, _ => none

/-- Decode a JSON array of strings. -/
def decodeStrList : Json → Option (List String)
  | Json.arr xs => decodeStrItems xs
  | _ => none

/-- Encode an optional metadata object: null when absent. -/
def encodeOptMeta : Option (List (String × Json)) → Json
  | none => Json.null
  | some m => Json.obj m

/-- Decode an optional metadata object: null means absent. -/
def decodeOptMeta : Json → Option (Option (List (String × Json)))
  | Json.null => some none
  | Json.obj m => some (some m)
  | _ => none

/-- Modelled from the spec: canonical JSON form of a `Branding` value. -/
def encodeBranding (b : Branding) : Json :=
  Json.obj
    [ ("logo_url", encodeOptStr b.logo_url),
      ("primary_color", encodeOptStr b.primary_color),
      ("secondary_color", encodeOptStr b.secondary_color) ]

/-- Modelled from the spec: read a `Branding` value back from JSON. -/
def decodeBranding : Json → Option Branding
  | Json.obj fs =>
    match (lookupField fs "logo_url").bind decodeOptStr,
        (lookupField fs "primary_color").bind decodeOptStr,
        (lookupField fs "secondary_color").bind decodeOptStr with
    | some l, some p, some s =>
      some { logo_url := l, primary_color := p, secondary_color := s }
    | _, _, _ => none
  | _ => none

/-- Encode an optional `Branding`: null when absent. -/
def encodeOptBranding : Option Branding → Json
  | none => Json.null
  | some b => encodeBranding b

/-- Decode an optional `Branding`: null means absent. -/
def decodeOptBranding : Json → Option (Option Branding)
  | Json.null => some none
  | j => (decodeBranding j).map some

/-- Modelled from the spec: canonical JSON form of an
`OrganizationSettings` value. -/
def encodeSettings (s : OrganizationSettings) : Json :=
  Json.obj
    [ ("allow_anonymous_responses", Json.bool s.allow_anonymous_responses),
      ("default_timezone", Json.str s.default_timezone),
      ("max_questions", Json.num s.max_questions),
      ("max_users", Json.num s.max_users),
      ("analytics_enabled", Json.bool s.analytics_enabled),
      ("branding", encodeOptBranding s.branding) ]

/-- Modelled from the spec: read an `OrganizationSettings` value back
from JSON. -/
def decodeSettings : Json → Option OrganizationSettings
  | Json.obj fs =>
    match (lookupField fs "allow_anonymous_responses").bind decodeBool,
        (lookupField fs "default_timezone").bind decodeStr,
        (lookupField fs "max_questions").bind decodeNum,
        (lookupField fs "max_users").bind decodeNum,
        (lookupField fs "analytics_enabled").bind decodeBool,
        (lookupField fs "branding").bind decodeOptBranding with
    | some a, some d, some mq, some mu, some ae, some br =>
      some { allow_anonymous_responses := a, default_timezone := d,
             max_questions := mq, max_users := mu,
             analytics_enabled := ae, branding := br }
    | _, _, _, _, _, _ => none
  | _ => none

/-- Encode optional `OrganizationSettings`: null when absent. -/
def encodeOptSettings : Option OrganizationSettings → Json
  | none => Json.null
  | some s => encodeSettings s

/-- Decode optional `OrganizationSettings`: null means absent. -/
def decodeOptSettings : Json → Option (Option OrganizationSettings)
  | Json.null => some none
  | j => (decodeSettings j).map some

/-- Modelled from the spec: canonical JSON form of a `UserPreferences`
value. -/
def encodePreferences (p : UserPreferences) : Json :=
  Json.obj
    [ ("timezone", Json.str p.timezone),
      ("email_notifications", Json.bool p.email_notifications),
      ("push_notifications", Json.bool p.push_notifications),
      ("language", Json.str p.language),
      ("show_anonymous_responses", Json.bool p.show_anonymous_responses),
      ("theme", Json.str p.theme) ]

/-- Modelled from the spec: read a `UserPreferences` value back from
JSON. -/
def decodePreferences : Json → Option UserPreferences
  | Json.obj fs =>
    match (lookupField fs "timezone").bind decodeStr,
        (lookupField fs "email_notifications").bind decodeBool,
        (lookupField fs "push_notifications").bind decodeBool,
        (lookupField fs "language").bind decodeStr,
        (lookupField fs "show_anonymous_responses").bind decodeBool,
        (lookupField fs "theme").bind decodeStr with
    | some tz, some en, some pn, some lg, some sa, some th =>
      some { timezone := tz, email_notifications := en,
             push_notifications := pn, language := lg,
             show_anonymous_responses := sa, theme := th }
    | _, _, _, _, _, _ => none
  | _ => none

/-- Encode optional `UserPreferences`: null when absent. -/
def encodeOptPreferences : Option UserPreferences → Json
  | none => Json.null
  | some p => encodePreferences p

/-- Decode optional `UserPreferences`: null means absent. -/
def decodeOptPreferences : Json → Option (Option UserPreferences)
  | Json.null => some none
  | j => (decodePreferences j).map some

/-- Modelled from the spec: canonical JSON form of an `Organization`
value, every declared field in declaration order. -/
def serializeOrganization (o : Organization) : Json :=
  Json.obj
    [ ("id", Json.str o.id),
      ("name", Json.str o.name),
      ("slug", Json.str o.slug),
      ("timezone", Json.str o.timezone),
      ("plan", Json.str o.plan),
      ("created_at", Json.str o.created_at),
      ("settings", encodeOptSettings o.settings),
      ("metadata", encodeOptMeta o.metadata) ]

/-- Modelled from the spec: read an `Organization` value back from
JSON, field by field by name. -/
def parseOrganization : Json → Option Organization
  | Json.obj fs =>
    match (lookupField fs "id").bind decodeStr,
        (lookupField fs "name").bind decodeStr,
        (lookupField fs "slug").bind decodeStr,
        (lookupField fs "timezone").bind decodeStr,
        (lookupField fs "plan").bind decodeStr,
        (lookupField fs "created_at").bind decodeStr,
        (lookupField fs "settings").bind decodeOptSettings,
        (lookupField fs "metadata").bind decodeOptMeta with
    | some i, some n, some sl, some tz, some p, some ca, some st, some md =>
      some { id := i, name := n, slug := sl, timezone := tz, plan := p,
             created_at := ca, settings := st, metadata := md }
    | _, _, _, _, _, _, _, _ => none
  | _ => none

/-- Modelled from the spec: canonical JSON form of a `User` value,
every declared field in declaration order. -/
def serializeUser (u : User) : Json :=
  Json.obj
    [ ("id", Json.str u.id),
      ("email", Json.str u.email),
      ("name", encodeOptStr u.name),
      ("organization_id", Json.str u.organization_id),
      ("role", Json.str u.role),
      ("status", Json.str u.status),
      ("last_login_at", Json.str u.last_login_at),
      ("created_at", Json.str u.created_at),
      ("preferences", encodeOptPreferences u.preferences),
      ("metadata", encodeOptMeta u.metadata) ]

/-- Modelled from the spec: read a `User` value back from JSON, field
by field by name. -/
def parseUser : Json → Option User
  | Json.obj fs =>
    match (lookupField fs "id").bind decodeStr,
        (lookupField fs "email").bind decodeStr,
        (lookupField fs "name").bind decodeOptStr,
        (lookupField fs "organization_id").bind decodeStr,
        (lookupField fs "role").bind decodeStr,
        (lookupField fs "status").bind decodeStr,
        (lookupField fs "last_login_at").bind decodeStr,
        (lookupField fs "created_at").bind decodeStr,
        (lookupField fs "preferences").bind decodeOptPreferences,
        (lookupField fs "metadata").bind decodeOptMeta with
    | some i, some em, some n, some og, some ro, some st, some ll, some ca,
        some pr, some md =>
      some { id := i, email := em, name := n, organization_id := og,
             role := ro, status := st, last_login_at := ll,
             created_at := ca, preferences := pr, metadata := md }
    | _, _, _, _, _, _, _, _, _, _ => none
  | _ => none

/-- Modelled from the spec: canonical JSON form of a `Question` value,
every declared field in declaration order. -/
def serializeQuestion (q : Question) : Json :=
  Json.obj
    [ ("id", Json.str q.id),
      ("organization_id", Json.str q.organization_id),
      ("text", Json.str q.text),
      ("options", encodeStrList q.options),
      ("type", Json.str q.type),
      ("allow_multiple", Json.bool q.allow_multiple),
      ("scheduled_for", Json.str q.scheduled_for),
      ("is_active", Json.bool q.is_active),
      ("is_anonymous", Json.bool q.is_anonymous),
      ("asset_url", encodeOptStr q.asset_url),
      ("created_by", Json.str q.created_by),
      ("visibility", Json.str q.visibility),
      ("tags", encodeStrList q.tags),
      ("created_at", Json.str q.created_at) ]

/-- Modelled from the spec: read a `Question` value back from JSON,
field by field by name. -/
def parseQuestion : Json → Option Question
  | Json.obj fs =>
    match (lookupField fs "id").bind decodeStr,
        (lookupField fs "organization_id").bind decodeStr,
        (lookupField fs "text").bind decodeStr,
        (lookupField fs "options").bind decodeStrList,
        (lookupField fs "type").bind decodeStr,
        (lookupField fs "allow_multiple").bind decodeBool,
        (lookupField fs "scheduled_for").bind decodeStr,
        (lookupField fs "is_active").bind decodeBool,
        (lookupField fs "is_anonymous").bind decodeBool,
        (lookupField fs "asset_url").bind decodeOptStr,
        (lookupField fs "created_by").bind decodeStr,
        (lookupField fs "visibility").bind decodeStr,
        (lookupField fs "tags").bind decodeStrList,
        (lookupField fs "created_at").bind decodeStr with
    | some i, some og, some tx, some op, some ty, some am, some sf,
        some ia, some an, some au, some cb, some vi, some tg, some ca =>
      some { id := i, organization_id := og, text := tx, options := op,
             type := ty, allow_multiple := am, scheduled_for := sf,
             is_active := ia, is_anonymous := an, asset_url := au,
             created_by := cb, visibility := vi, tags := tg,
             created_at := ca }
    | _, _, _, _, _, _, _, _, _, _, _, _, _, _ => none
  | _ => none

/-- Modelled from the spec: canonical JSON form of a `Response` value,
every declared field in declaration order. -/
def serializeResponse (r : Response) : Json :=
  Json.obj
    [ ("id", Json.str r.id),
      ("organization_id", Json.str r.organization_id),
      ("question_id", Json.str r.question_id),
      ("user_id", encodeOptStr r.user_id),
      ("answer", encodeStrList r.answer),
      ("text_answer", encodeOptStr r.text_answer),
      ("submitted_at", Json.str r.submitted_at),
      ("date", Json.str r.date),
      ("metadata", encodeOptMeta r.metadata) ]

/-- Modelled from the spec: read a `Response` value back from JSON,
field by field by name. -/
def parseResponse : Json → Option Response
  | Json.obj fs =>
    match (lookupField fs "id").bind decodeStr,
        (lookupField fs "organization_id").bind decodeStr,
        (lookupField fs "question_id").bind decodeStr,
        (lookupField fs "user_id").bind decodeOptStr,
        (lookupField fs "answer").bind decodeStrList,
        (lookupField fs "text_answer").bind decodeOptStr,
        (lookupField fs "submitted_at").bind decodeStr,
        (lookupField fs "date").bind decodeStr,
        (lookupField fs "metadata").bind decodeOptMeta with
    | some i, some og, some qi, some ui, some an, some ta, some sa,
        some dt, some md =>
      some { id := i, organization_id := og, question_id := qi,
             user_id := ui, answer := an, text_answer := ta,
             submitted_at := sa, date := dt, metadata := md }
    | _, _, _, _, _, _, _, _, _ => none
  | _ => none

/-! ## Round-trip lemmas

Each decoder is a retraction of the matching encoder: decoding the
canonical JSON form of a value returns exactly that value. -/

theorem decodeOptStr_encodeOptStr (x : Option String) :
    decodeOptStr (encodeOptStr x) = some x := by cases x <;> rfl

theorem decodeOptMeta_encodeOptMeta (m : Option (List (String × Json))) :
    decodeOptMeta (encodeOptMeta m) = some m := by cases m <;> rfl

theorem decodeStrItems_map_str (xs : List String) :
    decodeStrItems (xs.map Json.str) = some xs := by
  induction xs with
  | nil => rfl
  | cons x rest ih => simp [decodeStrItems, decodeStr, ih]

theorem decodeStrList_encodeStrList (xs : List String) :
    decodeStrList (encodeStrList xs) = some xs := by
  simp [encodeStrList, decodeStrList, decodeStrItems_map_str]

theorem decodeBranding_encodeBranding (b : Branding) :
    decodeBranding (encodeBranding b) = some b := by
  obtain ⟨l, p, s⟩ := b
  cases l <;> cases p <;> cases s <;> rfl

theorem decodeOptBranding_encodeOptBranding (x : Option Branding) :
    decodeOptBranding (encodeOptBranding x) = some x := by
  cases x with
  | none => rfl
  | some b => obtain ⟨l, p, s⟩ := b; cases l <;> cases p <;> cases s <;> rfl

theorem decodeSettings_encodeSettings (s : OrganizationSettings) :
    decodeSettings (encodeSettings s) = some s := by
  obtain ⟨a, d, mq, mu, ae, br⟩ := s
  simp [encodeSettings, decodeSettings, lookupField, decodeBool, decodeStr, decodeNum,
        decodeOptBranding_encodeOptBranding]

theorem decodeOptSettings_encodeOptSettings (x : Option OrganizationSettings) :
    decodeOptSettings (encodeOptSettings x) = some x := by
  cases x with
  | none => rfl
  | some s =>
    obtain ⟨a, d, mq, mu, ae, br⟩ := s
    cases br with
    | none => rfl
    | some b => obtain ⟨l, p, sc⟩ := b; cases l <;> cases p <;> cases sc <;> rfl

theorem decodePreferences_encodePreferences (p : UserPreferences) :
    decodePreferences (encodePreferences p) = some p := by
  obtain ⟨tz, en, pn, lg, sa, th⟩ := p
  rfl

theorem decodeOptPreferences_encodeOptPreferences (x : Option UserPreferences) :
    decodeOptPreferences (encodeOptPreferences x) = some x := by
  cases x with
  | none => rfl
  | some p => obtain ⟨tz, en, pn, lg, sa, th⟩ := p; rfl

theorem parseOrganization_serializeOrganization (o : Organization) :
    parseOrganization (serializeOrganization o) = some o := by
  obtain ⟨i, n, sl, tz, p, ca, st, md⟩ := o
  simp [serializeOrganization, parseOrganization, lookupField, decodeStr,
        decodeOptSettings_encodeOptSettings, decodeOptMeta_encodeOptMeta]

theorem parseUser_serializeUser (u : User) :
    parseUser (serializeUser u) = some u := by
  obtain ⟨i, em, n, og, ro, st, ll, ca, pr, md⟩ := u
  simp [serializeUser, parseUser, lookupField, decodeStr,
        decodeOptStr_encodeOptStr, decodeOptPreferences_encodeOptPreferences,
        decodeOptMeta_encodeOptMeta]

theorem parseQuestion_serializeQuestion (q : Question) :
    parseQuestion (serializeQuestion q) = some q := by
  obtain ⟨i, og, tx, op, ty, am, sf, ia, an, au, cb, vi, tg, ca⟩ := q
  simp [serializeQuestion, parseQuestion, lookupField, decodeStr, decodeBool,
        decodeOptStr_encodeOptStr, decodeStrList_encodeStrList]

theorem parseResponse_serializeResponse (r : Response) :
    parseResponse (serializeResponse r) = some r := by
  obtain ⟨i, og, qi, ui, an, ta, sa, dt, md⟩ := r
  simp [serializeResponse, parseResponse, lookupField, decodeStr,
        decodeOptStr_encodeOptStr, decodeStrList_encodeStrList, decodeOptMeta_encodeOptMeta]

/-! ## Claim theorems -/

/-- Claim C1: the plan-limits table PLAN_LIMITS has an entry for each
plan tier, its free entry has max_questions 10, max_users 5,
analytics_enabled false and custom_branding false, and its enterprise
entry has max_questions -1 and max_users -1 (meaning unlimited). -/
theorem plan_limits_table_matches_documented_values :
    (ORGANIZATION_PLANS.all (fun p => (PLAN_LIMITS.lookup p).isSome)) = true
    ∧ PLAN_LIMITS.lookup "free" =
        some { max_questions := 10, max_users := 5,
               analytics_enabled := false, custom_branding := false }
    ∧ (PLAN_LIMITS.lookup "enterprise").map PlanLimit.max_questions = some (-1)
    ∧ (PLAN_LIMITS.lookup "enterprise").map PlanLimit.max_users = some (-1) := by
  decide

/-- Claim C2: the default-value tables carry the documented literals:
the default organization plan is free, the default user role is user
with status active, and the default question visibility is draft with
an empty tag list. -/
theorem default_tables_match_documented_literals :
    ORGANIZATION_DEFAULTS.plan = "free"
    ∧ USER_DEFAULTS.role = "user"
    ∧ USER_DEFAULTS.status = "active"
    ∧ QUESTION_DEFAULTS.visibility = "draft"
    ∧ QUESTION_DEFAULTS.tags = [] := by
  decide

/-- Claim C3: each enumeration constant equals exactly its documented
value list, in order, with no duplicate elements. -/
theorem enumeration_constants_exact_ordered_nodup :
    (ORGANIZATION_PLANS = ["free", "pro", "enterprise"] ∧ ORGANIZATION_PLANS.Nodup)
    ∧ (USER_ROLES = ["admin", "user"] ∧ USER_ROLES.Nodup)
    ∧ (USER_STATUSES = ["active", "suspended", "pending", "inactive"] ∧ USER_STATUSES.Nodup)
    ∧ (QUESTION_TYPES = ["multiple_choice", "text", "scale"] ∧ QUESTION_TYPES.Nodup)
    ∧ (QUESTION_VISIBILITY = ["live", "draft", "private"] ∧ QUESTION_VISIBILITY.Nodup)
    ∧ (RESPONSE_STATUSES = ["submitted", "pending", "invalid"] ∧ RESPONSE_STATUSES.Nodup) := by
  decide

/-- Claim C4: the slug pattern accepts "acme-corp" and rejects
"Acme Corp!", and the email pattern accepts "a@b.co" and rejects
"a@b". -/
theorem validation_patterns_on_documented_examples :
    ORGANIZATION_VALIDATION.slug_pattern "acme-corp" = true
    ∧ ORGANIZATION_VALIDATION.slug_pattern "Acme Corp!" = false
    ∧ USER_VALIDATION.email_pattern "a@b.co" = true
    ∧ USER_VALIDATION.email_pattern "a@b" = false := by
  decide

/-- Claim C5: the declared Response shape has no status field among its
required or optional fields, while the module separately exports the
RESPONSE_STATUSES enumeration with exactly the values submitted,
pending and invalid. -/
theorem response_shape_has_no_status_field :
    ((responseRequiredFields ++ responseOptionalFields).contains "status") = false
    ∧ RESPONSE_STATUSES = ["submitted", "pending", "invalid"] := by
  decide

/-- Claim C6: in the declared Response shape the user_id field is
required (so it cannot be omitted) and nullable: every Response value
carries either a user identifier string or none, the embedding of the
null that marks an anonymous response. -/
theorem response_user_id_required_nullable :
    ("user_id" ∈ responseRequiredFields ∧ "user_id" ∉ responseOptionalFields)
    ∧ ∀ r : Response, r.user_id = none ∨ ∃ s : String, r.user_id = some s := by
  refine ⟨by decide, fun r => ?_⟩
  cases h : r.user_id with
  | none => exact Or.inl rfl
  | some s => exact Or.inr ⟨s, rfl⟩

/-- Claim C7: the policy-table lookups are total over their
discriminant enumerations and nothing more: every plan in
ORGANIZATION_PLANS has a PLAN_LIMITS entry, every role in USER_ROLES
has a USER_PERMISSIONS entry, and every key of either table lies in its
enumeration. -/
theorem policy_table_lookups_total_no_extra_keys :
    (ORGANIZATION_PLANS.all (fun p => (PLAN_LIMITS.lookup p).isSome)) = true
    ∧ (PLAN_LIMITS.all (fun e => ORGANIZATION_PLANS.contains e.1)) = true
    ∧ (USER_ROLES.all (fun r => (USER_PERMISSIONS.lookup r).isSome)) = true
    ∧ (USER_PERMISSIONS.all (fun e => USER_ROLES.contains e.1)) = true := by
  decide

/-- Claim C8: for each of the four entity shapes, serializing a value
to its canonical JSON form and parsing it back returns exactly the
original value: the serialize-then-parse composition is the identity on
conforming values. -/
theorem serialize_then_parse_is_identity :
    (∀ o : Organization, parseOrganization (serializeOrganization o) = some o)
    ∧ (∀ u : User, parseUser (serializeUser u) = some u)
    ∧ (∀ q : Question, parseQuestion (serializeQuestion q) = some q)
    ∧ (∀ r : Response, parseResponse (serializeResponse r) = some r) :=
  ⟨parseOrganization_serializeOrganization, parseUser_serializeUser,
   parseQuestion_serializeQuestion, parseResponse_serializeResponse⟩

/-- Claim C9: the default organization settings agree with the free
plan limits (same max_questions, max_users and analytics_enabled), and
the default plan is free. -/
theorem organization_defaults_agree_with_free_plan :
    ORGANIZATION_DEFAULTS.plan = "free"
    ∧ (PLAN_LIMITS.lookup "free").map PlanLimit.max_questions
        = some ORGANIZATION_DEFAULTS.settings.max_questions
    ∧ (PLAN_LIMITS.lookup "free").map PlanLimit.max_users
        = some ORGANIZATION_DEFAULTS.settings.max_users
    ∧ (PLAN_LIMITS.lookup "free").map PlanLimit.analytics_enabled
        = some ORGANIZATION_DEFAULTS.settings.analytics_enabled := by
  decide

/-- Claim C10: the role-to-permission table is all-or-nothing: the
admin entry and the user entry each consist of exactly the seven
documented permission flags in source order, all true for admin and all
false for user, and the table has exactly the keys admin and user. -/
theorem user_permissions_all_or_nothing :
    (USER_PERMISSIONS.lookup "admin").map (fun e => e.map Prod.fst)
      = some ["can_create_questions", "can_edit_questions", "can_delete_questions",
              "can_view_analytics", "can_manage_users", "can_manage_organization",
              "can_export_data"]
    ∧ (USER_PERMISSIONS.lookup "admin").map (fun e => e.all Prod.snd) = some true
    ∧ (USER_PERMISSIONS.lookup "user").map (fun e => e.map Prod.fst)
      = some ["can_create_questions", "can_edit_questions", "can_delete_questions",
              "can_view_analytics", "can_manage_users", "can_manage_organization",
              "can_export_data"]
    ∧ (USER_PERMISSIONS.lookup "user").map (fun e => e.all (fun f => !f.2)) = some true
    ∧ USER_PERMISSIONS.map Prod.fst = ["admin", "user"] := by
  decide

end EchoModels
